import Mathlib

/-!
Verification of the OpenDAFF language-binding layer (Go CGO wrapper,
Python C-extension module, Rust FFI wrapper) against its specification.

The bindings marshal calls to the native DAFF reader library.  Pure
wrapper logic (null checks, handle tables, buffer-size checks,
de-interleaving loops) is embedded directly from the C++/Go sources.
Native-library entry points that are only declared (not defined) in the
repository are modelled from the specification; each such definition says
so in its doc comment.  Machine floats carried by the bindings are
modelled as rationals: the wrapper layer only copies and rearranges
values, it never performs float arithmetic on them.
-/

namespace OpenDAFF

/-- Content type of a DAFF file (daff.go, constants ContentTypeIR..ContentTypeDFT;
mirrors the native enum referenced by the wrappers). -/
inductive ContentType where
  | ir
  | ms
  | ps
  | mps
  | dft
deriving DecidableEq, Repr

/-- Integer code of a content type as fixed in daff.go lines 46-52. -/
def ContentType.code : ContentType → Int
  | .ir => 1
  | .ms => 2
  | .ps => 3
  | .mps => 4
  | .dft => 5

/-- Error code DAFF_NO_ERROR of the native library: the wrappers compare
the result of openFile and getCoefficientsMP against it; its value 0 is
fixed by the C convention visible in the wrapper code. -/
def DAFF_NO_ERROR : Int := 0

/-- Modelled from the spec: the native error code returned for an
out-of-range record or channel index (IndexOutOfRangeError of spec section 7).
Its exact numeric value is not in the sources; only its being distinct
from DAFF_NO_ERROR is ever used. -/
def DAFF_INVALID_INDEX : Int := 1

/-! ## Properties of an opened file, as read by the property getters

The Go wrapper (daff_go_wrapper.cpp, GoDAFF_GetContentType ..
GoDAFF_GetOrientationYPR) and the Rust wrapper (daff_rust_wrapper.cpp,
RustDAFF_GetContentType .. RustDAFF_GetOrientationYPR) expose these
fields of the native reader.  A wrapper handle is `Option ReaderProps`:
`none` is the null handle. -/

/-- Fields of the native DAFFProperties object that the property getters
of the Go and Rust wrappers read.  Angles are degrees, per the sources. -/
structure ReaderProps where
  contentType : Int
  quantization : Int
  numChannels : Int
  numRecords : Int
  alphaResolution : ℚ
  betaResolution : ℚ
  alphaPoints : Int
  betaPoints : Int
  yawAngleDeg : ℚ
  pitchAngleDeg : ℚ
  rollAngleDeg : ℚ
deriving DecidableEq, Repr

/-- GoDAFF_GetContentType (daff_go_wrapper.cpp): -1 on a null handle,
else the properties content type. -/
def GoDAFF_GetContentType (h : Option ReaderProps) : Int :=
  match h with
  | none => -1
  | some r => r.contentType

/-- GoDAFF_GetQuantization (daff_go_wrapper.cpp): -1 on a null handle. -/
def GoDAFF_GetQuantization (h : Option ReaderProps) : Int :=
  match h with
  | none => -1
  | some r => r.quantization

/-- GoDAFF_GetNumChannels (daff_go_wrapper.cpp): -1 on a null handle. -/
def GoDAFF_GetNumChannels (h : Option ReaderProps) : Int :=
  match h with
  | none => -1
  | some r => r.numChannels

/-- GoDAFF_GetNumRecords (daff_go_wrapper.cpp): -1 on a null handle. -/
def GoDAFF_GetNumRecords (h : Option ReaderProps) : Int :=
  match h with
  | none => -1
  | some r => r.numRecords

/-- GoDAFF_GetAlphaResolution (daff_go_wrapper.cpp): -1.0 on a null handle. -/
def GoDAFF_GetAlphaResolution (h : Option ReaderProps) : ℚ :=
  match h with
  | none => -1
  | some r => r.alphaResolution

/-- GoDAFF_GetBetaResolution (daff_go_wrapper.cpp): -1.0 on a null handle. -/
def GoDAFF_GetBetaResolution (h : Option ReaderProps) : ℚ :=
  match h with
  | none => -1
  | some r => r.betaResolution

/-- GoDAFF_GetAlphaPoints (daff_go_wrapper.cpp): -1 on a null handle. -/
def GoDAFF_GetAlphaPoints (h : Option ReaderProps) : Int :=
  match h with
  | none => -1
  | some r => r.alphaPoints

/-- GoDAFF_GetBetaPoints (daff_go_wrapper.cpp): -1 on a null handle. -/
def GoDAFF_GetBetaPoints (h : Option ReaderProps) : Int :=
  match h with
  | none => -1
  | some r => r.betaPoints

/-- GoDAFF_GetOrientationYPR (daff_go_wrapper.cpp): the three Booleans
state whether the yaw/pitch/roll output pointers are non-null; a null
handle or any null output pointer yields -1 with no values written,
otherwise 0 and the orientation angles. -/
def GoDAFF_GetOrientationYPR (h : Option ReaderProps)
    (yawPtr pitchPtr rollPtr : Bool) : Int × Option (ℚ × ℚ × ℚ) :=
  match h with
  | none => (-1, none)
  | some r =>
    if yawPtr && pitchPtr && rollPtr then
      (0, some (r.yawAngleDeg, r.pitchAngleDeg, r.rollAngleDeg))
    else
      (-1, none)

/-- RustDAFF_GetContentType (daff_rust_wrapper.cpp): -1 on a null handle. -/
def RustDAFF_GetContentType (h : Option ReaderProps) : Int :=
  match h with
  | none => -1
  | some r => r.contentType

/-- RustDAFF_GetQuantization (daff_rust_wrapper.cpp): -1 on a null handle. -/
def RustDAFF_GetQuantization (h : Option ReaderProps) : Int :=
  match h with
  | none => -1
  | some r => r.quantization

/-- RustDAFF_GetNumChannels (daff_rust_wrapper.cpp): -1 on a null handle. -/
def RustDAFF_GetNumChannels (h : Option ReaderProps) : Int :=
  match h with
  | none => -1
  | some r => r.numChannels

/-- RustDAFF_GetNumRecords (daff_rust_wrapper.cpp): -1 on a null handle. -/
def RustDAFF_GetNumRecords (h : Option ReaderProps) : Int :=
  match h with
  | none => -1
  | some r => r.numRecords

/-- RustDAFF_GetAlphaResolution (daff_rust_wrapper.cpp): -1.0 on a null handle. -/
def RustDAFF_GetAlphaResolution (h : Option ReaderProps) : ℚ :=
  match h with
  | none => -1
  | some r => r.alphaResolution

/-- RustDAFF_GetBetaResolution (daff_rust_wrapper.cpp): -1.0 on a null handle. -/
def RustDAFF_GetBetaResolution (h : Option ReaderProps) : ℚ :=
  match h with
  | none => -1
  | some r => r.betaResolution

/-- RustDAFF_GetAlphaPoints (daff_rust_wrapper.cpp): -1 on a null handle. -/
def RustDAFF_GetAlphaPoints (h : Option ReaderProps) : Int :=
  match h with
  | none => -1
  | some r => r.alphaPoints

/-- RustDAFF_GetBetaPoints (daff_rust_wrapper.cpp): -1 on a null handle. -/
def RustDAFF_GetBetaPoints (h : Option ReaderProps) : Int :=
  match h with
  | none => -1
  | some r => r.betaPoints

/-- RustDAFF_GetOrientationYPR (daff_rust_wrapper.cpp): same contract as
the Go variant; -1 on a null handle or any null output pointer. -/
def RustDAFF_GetOrientationYPR (h : Option ReaderProps)
    (yawPtr pitchPtr rollPtr : Bool) : Int × Option (ℚ × ℚ × ℚ) :=
  match h with
  | none => (-1, none)
  | some r =>
    if yawPtr && pitchPtr && rollPtr then
      (0, some (r.yawAngleDeg, r.pitchAngleDeg, r.rollAngleDeg))
    else
      (-1, none)

/-! ## Metadata (claim C2)

The Go wrapper exposes typed metadata getters.  The native DAFFMetadata
object is only declared in the repository; the wrapper calls its
hasKey / getKeyFloat / getKeyBool members. -/

/-- A tagged metadata value: exactly the four kinds of the DAFF metadata
block (bool, int, float, string). -/
inductive MetaValue where
  | boolVal (v : Bool)
  | intVal (v : Int)
  | floatVal (v : ℚ)
  | stringVal (v : String)
deriving DecidableEq, Repr

/-- The native metadata table, keyed by string. -/
def Metadata := List (String × MetaValue)

/-- DAFFMetadata::hasKey as used by the wrappers: key membership. -/
def Metadata.hasKey (m : Metadata) (k : String) : Bool :=
  m.any fun p => decide (p.1 = k)

/-- Lookup of the stored tagged value for a key. -/
def Metadata.lookupVal (m : Metadata) (k : String) : Option MetaValue :=
  (m.find? fun p => decide (p.1 = k)).map fun p => p.2

/-- Modelled from the spec: the native DAFFMetadata::getKeyFloat is not
under src; its declaration, as called by GoDAFF_GetMetadataFloat with no
error handling, is total with return type double.  The value produced
for a key of a different kind is modelled as a numeric coercion; the
theorems below rely only on totality, never on the coerced value. -/
def Metadata.getKeyFloat (m : Metadata) (k : String) : ℚ :=
  match m.lookupVal k with
  | some (MetaValue.floatVal v) => v
  | some (MetaValue.intVal v) => (v : ℚ)
  | some (MetaValue.boolVal v) => if v then 1 else 0
  | _ => 0

/-- Modelled from the spec: the native DAFFMetadata::getKeyBool, total
with return type bool, like getKeyFloat above. -/
def Metadata.getKeyBool (m : Metadata) (k : String) : Bool :=
  match m.lookupVal k with
  | some (MetaValue.boolVal v) => v
  | some (MetaValue.intVal v) => decide (v ≠ 0)
  | _ => false

/-- GoDAFF_GetMetadataFloat (daff_go_wrapper.cpp lines 761-770): returns
false (here: none) when the handle, key or value pointer is null or the
key is absent; otherwise it stores getKeyFloat of the key and returns
true.  No type check is performed. -/
def GoDAFF_GetMetadataFloat (h : Option Metadata) (k : Option String) : Option ℚ :=
  match h, k with
  | some m, some key =>
    if m.hasKey key then some (m.getKeyFloat key) else none
  | _, _ => none

/-- GoDAFF_GetMetadataBool (daff_go_wrapper.cpp lines 772-781): same
structure as GoDAFF_GetMetadataFloat, calling getKeyBool. -/
def GoDAFF_GetMetadataBool (h : Option Metadata) (k : Option String) : Option Bool :=
  match h, k with
  | some m, some key =>
    if m.hasKey key then some (m.getKeyBool key) else none
  | _, _ => none

/-! ## Python DFT record accessor buffer (claim C1)

GetRecordPython in pydaff.cpp, DFT branch (lines 325-352): it allocates
`new float[iNumDFTCoeffs]` and then builds numDFTCoeffs complex values
from fDFTCoeffs[2*i] and fDFTCoeffs[2*i+1] for 0 <= i < numDFTCoeffs. -/

/-- Number of floats allocated by the DFT branch of GetRecordPython for
one channel: new float[iNumDFTCoeffs]. -/
def pydaffDFTAllocLen (numDFTCoeffs : Nat) : Nat := numDFTCoeffs

/-- Buffer indices read by the DFT branch of GetRecordPython:
fDFTCoeffs[2*i] and fDFTCoeffs[2*i+1] for each i below numDFTCoeffs. -/
def pydaffDFTReadIndices (numDFTCoeffs : Nat) : List Nat :=
  (List.range numDFTCoeffs).flatMap fun i => [2 * i, 2 * i + 1]

/-- Number of floats the native getDFTCoeffs writes into the destination
buffer: the interleaved real/imaginary pairs, 2 x numDFTCoeffs, as the
sibling Go wrapper states explicitly (daff_go_wrapper.cpp lines 1071-1072
require a buffer of size numDFTCoeffs * 2). -/
def nativeDFTWriteLen (numDFTCoeffs : Nat) : Nat := 2 * numDFTCoeffs

/-! ## Content objects

The parsed per-record payloads of the five content types.  records is
indexed record-first, then channel; each payload is the float sequence
the native library stores for that record and channel (interleaved pairs
for MPS and DFT). -/

/-- Impulse-response content: per record and channel, filterLength
time-domain samples. -/
structure ContentIR where
  filterLength : Nat
  samplerate : Nat
  records : List (List (List ℚ))
deriving DecidableEq, Repr

/-- Magnitude-spectrum content: per record and channel, numFrequencies
linear magnitudes. -/
structure ContentMS where
  numFrequencies : Nat
  records : List (List (List ℚ))
deriving DecidableEq, Repr

/-- Phase-spectrum content: per record and channel, numFrequencies
phases. -/
structure ContentPS where
  numFrequencies : Nat
  records : List (List (List ℚ))
deriving DecidableEq, Repr

/-- Magnitude-phase-spectrum content: per record and channel, the
interleaved payload Mag[0], Ph[0], Mag[1], Ph[1], ... of length
2 x numFrequencies. -/
structure ContentMPS where
  numFrequencies : Nat
  records : List (List (List ℚ))
deriving DecidableEq, Repr

/-- DFT content: per record and channel, interleaved real/imaginary
coefficients of length 2 x numDFTCoeffs. -/
structure ContentDFT where
  numDFTCoeffs : Nat
  isSymmetric : Bool
  records : List (List (List ℚ))
deriving DecidableEq, Repr

/-- The content object owned by an opened reader: exactly one of the
five content types (one-file-one-content-type invariant of the native
parser, spec section 9). -/
inductive DAFFContent where
  | ir (c : ContentIR)
  | ms (c : ContentMS)
  | ps (c : ContentPS)
  | mps (c : ContentMPS)
  | dft (c : ContentDFT)
deriving DecidableEq, Repr

/-- Dynamic type of the content object. -/
def DAFFContent.typeOf : DAFFContent → ContentType
  | .ir _ => .ir
  | .ms _ => .ms
  | .ps _ => .ps
  | .mps _ => .mps
  | .dft _ => .dft

/-- An opened native DAFFReader as the dispatch wrappers see it: it owns
one content object; getProperties()->getContentType() returns the parsed
content-type tag, which the native parser guarantees to agree with the
dynamic type of getContent() (the tag selects which content class is
constructed). -/
structure DAFFReader where
  content : DAFFContent
deriving DecidableEq, Repr

/-- Content-type tag of the reader properties. -/
def DAFFReader.getContentType (r : DAFFReader) : ContentType :=
  r.content.typeOf

/-- GoDAFF_GetContentIR (daff_go_wrapper.cpp lines 784-792): null handle
or content type other than impulse response yields nullptr (none); else
the content object down-cast to DAFFContentIR. -/
def GoDAFF_GetContentIR (h : Option DAFFReader) : Option ContentIR :=
  match h with
  | none => none
  | some r =>
    if r.getContentType = ContentType.ir then
      match r.content with
      | .ir c => some c
      | _ => none
    else none

/-- GoDAFF_GetContentMS (daff_go_wrapper.cpp lines 845-853). -/
def GoDAFF_GetContentMS (h : Option DAFFReader) : Option ContentMS :=
  match h with
  | none => none
  | some r =>
    if r.getContentType = ContentType.ms then
      match r.content with
      | .ms c => some c
      | _ => none
    else none

/-- GoDAFF_GetContentPS (daff_go_wrapper.cpp lines 898-906). -/
def GoDAFF_GetContentPS (h : Option DAFFReader) : Option ContentPS :=
  match h with
  | none => none
  | some r =>
    if r.getContentType = ContentType.ps then
      match r.content with
      | .ps c => some c
      | _ => none
    else none

/-- GoDAFF_GetContentMPS (daff_go_wrapper.cpp lines 951-959). -/
def GoDAFF_GetContentMPS (h : Option DAFFReader) : Option ContentMPS :=
  match h with
  | none => none
  | some r =>
    if r.getContentType = ContentType.mps then
      match r.content with
      | .mps c => some c
      | _ => none
    else none

/-- GoDAFF_GetContentDFT (daff_go_wrapper.cpp lines 1017-1025). -/
def GoDAFF_GetContentDFT (h : Option DAFFReader) : Option ContentDFT :=
  match h with
  | none => none
  | some r =>
    if r.getContentType = ContentType.dft then
      match r.content with
      | .dft c => some c
      | _ => none
    else none

/-- RustDAFF_GetContentIR (daff_rust_wrapper.cpp lines 211-219):
verbatim the same dispatch as the Go variant. -/
def RustDAFF_GetContentIR (h : Option DAFFReader) : Option ContentIR :=
  match h with
  | none => none
  | some r =>
    if r.getContentType = ContentType.ir then
      match r.content with
      | .ir c => some c
      | _ => none
    else none

/-! ## Impulse-response data access (claim C3) -/

/-- Modelled from the spec: DAFFContentIR::getFilterCoeffs of the native
library (declaration only in the repository).  The spec (sections 4.4
and 7) has the core reject an out-of-range record or channel index with
IndexOutOfRangeError; modelled as returning DAFF_INVALID_INDEX and
leaving the destination buffer untouched, and otherwise writing the
record's filterLength samples and returning DAFF_NO_ERROR.  Indices are
C ints, so they may be negative. -/
def ContentIR.getFilterCoeffs (c : ContentIR) (recordIndex channel : Int)
    (dest : List ℚ) : Int × List ℚ :=
  if 0 ≤ recordIndex ∧ 0 ≤ channel then
    match (c.records.get? recordIndex.toNat).bind fun chans =>
        chans.get? channel.toNat with
    | some payload => (DAFF_NO_ERROR, payload)
    | none => (DAFF_INVALID_INDEX, dest)
  else (DAFF_INVALID_INDEX, dest)

/-- GoDAFF_ContentIR_GetFilterCoeffs (daff_go_wrapper.cpp lines 832-842):
false on a null content or buffer pointer, false when the buffer is
smaller than the filter length; otherwise it calls the native
getFilterCoeffs, DISCARDS its return code, and reports true. -/
def GoDAFF_ContentIR_GetFilterCoeffs (content : Option ContentIR)
    (recordIndex channel : Int) (buf : Option (List ℚ)) (bufferSize : Int) :
    Bool × Option (List ℚ) :=
  match content, buf with
  | some c, some b =>
    if bufferSize < (c.filterLength : Int) then (false, some b)
    else (true, some (c.getFilterCoeffs recordIndex channel b).2)
  | _, b => (false, b)

/-- GetFilterCoeffs of the Go ContentIR type (daff.go lines 274-283):
allocates a zeroed slice of length GetFilterLength, calls the wrapper
with bufferSize equal to that length, and returns the slice on success,
an error (none) on failure. -/
def ContentIR.GetFilterCoeffs (c : ContentIR) (recordIndex channel : Int) :
    Option (List ℚ) :=
  let length := c.filterLength
  let coeffs : List ℚ := List.replicate length 0
  match GoDAFF_ContentIR_GetFilterCoeffs (some c) recordIndex channel
      (some coeffs) (length : Int) with
  | (true, some filled) => some filled
  | _ => none

/-! ## Magnitude-phase-spectrum data access (claim C6) -/

/-- Modelled from the spec: DAFFContentMPS::getCoefficientsMP of the
native library (declaration only in the repository).  For a valid record
and channel it writes the record's interleaved (Mag, Ph) payload of
2 x numFrequencies floats and returns DAFF_NO_ERROR; an invalid index
yields an error result (none here, matching the wrapper's check of the
return code against DAFF_NO_ERROR). -/
def ContentMPS.getCoefficientsMP (c : ContentMPS) (recordIndex channel : Nat) :
    Option (List ℚ) :=
  (c.records.get? recordIndex).bind fun chans => chans.get? channel

/-- GoDAFF_ContentMPS_GetCoefficients (daff_go_wrapper.cpp lines
991-1014): rejects null pointers and undersized buffers, fetches the
interleaved payload, fails if the native call does not return
DAFF_NO_ERROR, and de-interleaves: magnitudes[i] = interleaved[2i],
phases[i] = interleaved[2i+1] for i below numFrequencies.  The C loop
reads from a zero-initialised vector of size 2 x numFrequencies, which
getD with default 0 mirrors. -/
def GoDAFF_ContentMPS_GetCoefficients (content : Option ContentMPS)
    (recordIndex channel : Nat) (bufferSize : Nat) :
    Option (List ℚ × List ℚ) :=
  match content with
  | none => none
  | some c =>
    if bufferSize < c.numFrequencies then none
    else
      match c.getCoefficientsMP recordIndex channel with
      | none => none
      | some interleaved =>
        some ((List.range c.numFrequencies).map fun i =>
                interleaved.getD (2 * i) 0,
              (List.range c.numFrequencies).map fun i =>
                interleaved.getD (2 * i + 1) 0)

/-- GetCoefficients of the Go ContentMPS type (daff.go lines 408-419):
allocates magnitude and phase slices of length GetNumFrequencies and
calls the wrapper with bufferSize equal to numFrequencies. -/
def ContentMPS.GetCoefficients (c : ContentMPS) (recordIndex channel : Nat) :
    Option (List ℚ × List ℚ) :=
  GoDAFF_ContentMPS_GetCoefficients (some c) recordIndex channel
    c.numFrequencies

/-! ## Python handle table (claims C4, C7, C10)

pydaff.cpp keeps a global map g_mReader from integer handle to reader
and a counter g_iLastHandle (lines 44-45, initialised empty and 0).
daff_open registers a reader under ++g_iLastHandle only when the native
openFile returns DAFF_NO_ERROR; daff_close erases the handle.  Every
other entry point first checks ValidHandle and raises an error for an
unknown handle.  The C counter is a machine int; it is modelled as an
unbounded natural number because signed overflow has no defined
behaviour to embed. -/

/-- The per-handle data the Python entry points read.  Only the content
type tag is needed by the claims. -/
structure PyReader where
  contentType : Int
deriving DecidableEq, Repr

/-- The global state of pydaff.cpp: g_mReader and g_iLastHandle. -/
structure PyState where
  table : List (Nat × PyReader)
  lastHandle : Nat
deriving DecidableEq, Repr

/-- ValidHandle (pydaff.cpp lines 51-57): whether the handle is a key of
g_mReader. -/
def PyState.validHandle (s : PyState) (h : Nat) : Bool :=
  s.table.any fun p => decide (p.1 = h)

/-- Invariant of the handle table: every registered handle is at most
the last handle the counter produced.  It holds in the initial state and
is preserved by every entry point. -/
def PyState.inv (s : PyState) : Prop :=
  ∀ p ∈ s.table, p.1 ≤ s.lastHandle

instance (s : PyState) : Decidable s.inv := by
  unfold PyState.inv
  infer_instance

/-- The initial global state (pydaff.cpp lines 44-45): empty map,
counter 0. -/
def pyInit : PyState := ⟨[], 0⟩

/-- daff_open (pydaff.cpp lines 59-80): the outcome of the native
openFile call is the openResult argument.  On DAFF_NO_ERROR the reader
is registered under the incremented counter and that handle returned;
on any other result the reader is deleted, no handle is registered, and
an error (none) is raised. -/
def daff_open (s : PyState) (openResult : Int) (f : PyReader) :
    Option Nat × PyState :=
  if openResult = DAFF_NO_ERROR then
    let h := s.lastHandle + 1
    (some h, ⟨(h, f) :: s.table, h⟩)
  else
    (none, s)

/-- daff_close (pydaff.cpp lines 82-99): an invalid handle raises an
error (false); a valid one is erased from the map and true (Py_None)
returned. -/
def daff_close (s : PyState) (h : Nat) : Bool × PyState :=
  if s.validHandle h then
    (true, ⟨s.table.filter fun p => decide (p.1 ≠ h), s.lastHandle⟩)
  else
    (false, s)

/-- daff_content_type (pydaff.cpp lines 356-372): an invalid handle
raises an error (none); otherwise the reader's content type tag. -/
def daff_content_type (s : PyState) (h : Nat) : Option Int :=
  match s.table.find? fun p => decide (p.1 = h) with
  | some p => some p.2.contentType
  | none => none

/-- One call to a pydaff entry point, as it affects the global state.
query stands for any of the read-only entry points
(nearest_neighbour_index, nearest_neighbour_record, record,
content_type, content_type_str, metadata, properties): each only checks
ValidHandle and reads, never touching g_mReader or g_iLastHandle. -/
inductive PyOp where
  | openFile (openResult : Int) (f : PyReader)
  | closeFile (h : Nat)
  | query (h : Nat)
deriving DecidableEq, Repr

/-- Run a sequence of entry-point calls from a state, collecting the
handles returned by the successful opens, in call order. -/
def pyRun (s : PyState) : List PyOp → PyState × List Nat
  | [] => (s, [])
  | op :: rest =>
    match op with
    | PyOp.openFile e f =>
      match daff_open s e f with
      | (some h, s1) =>
        let t := pyRun s1 rest
        (t.1, h :: t.2)
      | (none, s1) => pyRun s1 rest
    | PyOp.closeFile h => pyRun (daff_close s h).2 rest
    | PyOp.query _ => pyRun s rest

/-- Final state after a sequence of entry-point calls. -/
def pyRunState (s : PyState) (ops : List PyOp) : PyState :=
  (pyRun s ops).1

/-! ## Nearest-neighbour search on an equi-angular grid (claim C8)

The nearest-neighbour search and the record-coordinate mapping live in
the native library, which is not under src; the bindings only forward to
them.  Both are therefore modelled from the spec (section 4.4): for a
file declaring an equi-angular sampling the search is a direct formula
lookup - round each data-view angle to the nearest grid step and clamp
to the valid index range - and recordCoords is the inverse mapping from
a record index to its defining grid direction.  outOfBounds is set
exactly when the query direction lies outside the covered angular
range.  Records are laid out beta-major: index = betaIndex * alphaPoints
+ alphaIndex (one fixed layout; the round-trip property is independent
of this choice).  Angles are rationals in the data view. -/

/-- Round to the nearest integer, halves up. -/
def roundHalfUp (q : ℚ) : ℤ :=
  ⌊q + 1 / 2⌋

/-- Clamp an integer into the interval from lo to hi. -/
def clampInt (x lo hi : ℤ) : ℤ :=
  max lo (min hi x)

/-- An equi-angular sampling grid as declared in the file properties:
point counts, start angles and resolutions for alpha and beta. -/
structure Grid where
  alphaPoints : ℤ
  betaPoints : ℤ
  alphaStart : ℚ
  alphaRes : ℚ
  betaStart : ℚ
  betaRes : ℚ
deriving DecidableEq, Repr

/-- Modelled from the spec: whether a data-view direction lies outside
the angular coverage declared by the grid. -/
def Grid.outOfBounds (g : Grid) (alpha beta : ℚ) : Bool :=
  decide (alpha < g.alphaStart) ||
  decide (g.alphaStart + ((g.alphaPoints - 1 : ℤ) : ℚ) * g.alphaRes < alpha) ||
  decide (beta < g.betaStart) ||
  decide (g.betaStart + ((g.betaPoints - 1 : ℤ) : ℚ) * g.betaRes < beta)

/-- Modelled from the spec: getNearestNeighbour for an equi-angular
grid - round each angle to the nearest grid step, clamp the indices to
the valid range, compose the record index, and report outOfBounds for
queries outside the coverage (the nearest record is returned
regardless). -/
def Grid.nearestNeighbour (g : Grid) (alpha beta : ℚ) : ℤ × Bool :=
  let ia := clampInt (roundHalfUp ((alpha - g.alphaStart) / g.alphaRes))
    0 (g.alphaPoints - 1)
  let ib := clampInt (roundHalfUp ((beta - g.betaStart) / g.betaRes))
    0 (g.betaPoints - 1)
  (ib * g.alphaPoints + ia, g.outOfBounds alpha beta)

/-- Modelled from the spec: getRecordCoords - the data-view direction a
record index stands for, the inverse of the grid layout. -/
def Grid.recordCoords (g : Grid) (r : ℤ) : ℚ × ℚ :=
  (g.alphaStart + ((r % g.alphaPoints : ℤ) : ℚ) * g.alphaRes,
   g.betaStart + ((r / g.alphaPoints : ℤ) : ℚ) * g.betaRes)

/-! ## Remaining wrapper entry points with a handle parameter

Every further Go and Rust wrapper function that takes a reader or
content handle and returns a value, embedded for the null-guard
boundary.  Handles are Options; each handle payload is the portion of
the native object the function reads.  Where a function forwards to a
native computation that is not under src and is modelled elsewhere
(the nearest-neighbour search, the record-coordinate mapping), the
value the native call writes through its out parameter is taken as an
argument: the wrapper's own logic - the guard and the forwarding - is
what these definitions transcribe. -/

/-- GoDAFF_OpenFile (daff_go_wrapper.cpp lines 626-644): false on a null
handle or filename; otherwise true exactly when the native openFile
(whose outcome is the openResult argument) returns DAFF_NO_ERROR. -/
def GoDAFF_OpenFile (h : Option Unit) (filenamePtr : Bool)
    (openResult : Int) : Bool :=
  match h with
  | none => false
  | some _ => if filenamePtr then decide (openResult = DAFF_NO_ERROR) else false

/-- GoDAFF_IsValid (daff_go_wrapper.cpp lines 654-660): false on a null
handle, else the reader's isFileOpened flag (the one field read). -/
def GoDAFF_IsValid (h : Option Bool) : Bool :=
  match h with
  | none => false
  | some fileOpened => fileOpened

/-- Modelled from the spec: the native DAFFMetadata::getKeyString,
total with a string return like the other typed getters; the value for
a non-string key is modelled as the empty string.  Only totality is
relied on. -/
def Metadata.getKeyString (m : Metadata) (k : String) : String :=
  match m.lookupVal k with
  | some (MetaValue.stringVal v) => v
  | _ => ""

/-- GoDAFF_HasMetadata (daff_go_wrapper.cpp lines 741-747): false on a
null handle or key, else hasKey. -/
def GoDAFF_HasMetadata (h : Option Metadata) (k : Option String) : Bool :=
  match h, k with
  | some m, some key => m.hasKey key
  | _, _ => false

/-- GoDAFF_GetMetadataString (daff_go_wrapper.cpp lines 749-759):
nullptr on a null handle or key or an absent key, else the stored
string. -/
def GoDAFF_GetMetadataString (h : Option Metadata) (k : Option String) :
    Option String :=
  match h, k with
  | some m, some key =>
    if m.hasKey key then some (m.getKeyString key) else none
  | _, _ => none

/-- GoDAFF_ContentIR_GetFilterLength (daff_go_wrapper.cpp lines
794-800): -1 on a null content handle. -/
def GoDAFF_ContentIR_GetFilterLength (content : Option ContentIR) : Int :=
  match content with
  | none => -1
  | some c => (c.filterLength : Int)

/-- GoDAFF_ContentIR_GetSamplerate (daff_go_wrapper.cpp lines 802-808):
-1 on a null content handle. -/
def GoDAFF_ContentIR_GetSamplerate (content : Option ContentIR) : Int :=
  match content with
  | none => -1
  | some c => (c.samplerate : Int)

/-- GoDAFF_ContentIR_GetNearestNeighbour (daff_go_wrapper.cpp lines
810-818): -1 on a null content handle; otherwise the record index the
native search writes (taken as the nativeIndex argument; the search
itself is modelled separately as Grid.nearestNeighbour). -/
def GoDAFF_ContentIR_GetNearestNeighbour (content : Option ContentIR)
    (phi theta : ℚ) (nativeIndex : Int) : Int :=
  match content with
  | none => -1
  | some _ => nativeIndex

/-- GoDAFF_ContentIR_GetRecordCoords (daff_go_wrapper.cpp lines
820-830): false on a null content handle or a null alpha or beta output
pointer; otherwise true with the data-view coordinates the native call
writes (taken as the nativeCoords argument; the mapping is modelled
separately as Grid.recordCoords). -/
def GoDAFF_ContentIR_GetRecordCoords (content : Option ContentIR)
    (recordIndex : Int) (alphaPtr betaPtr : Bool) (nativeCoords : ℚ × ℚ) :
    Bool × Option (ℚ × ℚ) :=
  match content with
  | none => (false, none)
  | some _ =>
    if alphaPtr && betaPtr then (true, some nativeCoords)
    else (false, none)

/-- Modelled from the spec: native DAFFContentMS::getMagnitudes, like
DAFFContentIR::getFilterCoeffs - bounds-checked, writing the record's
numFrequencies magnitudes, or DAFF_INVALID_INDEX leaving the
destination untouched. -/
def ContentMS.getMagnitudes (c : ContentMS) (recordIndex channel : Int)
    (dest : List ℚ) : Int × List ℚ :=
  if 0 ≤ recordIndex ∧ 0 ≤ channel then
    match (c.records.get? recordIndex.toNat).bind fun chans =>
        chans.get? channel.toNat with
    | some payload => (DAFF_NO_ERROR, payload)
    | none => (DAFF_INVALID_INDEX, dest)
  else (DAFF_INVALID_INDEX, dest)

/-- GoDAFF_ContentMS_GetNumFrequencies (daff_go_wrapper.cpp lines
855-861): -1 on a null content handle. -/
def GoDAFF_ContentMS_GetNumFrequencies (content : Option ContentMS) : Int :=
  match content with
  | none => -1
  | some c => (c.numFrequencies : Int)

/-- GoDAFF_ContentMS_GetNearestNeighbour (daff_go_wrapper.cpp lines
863-871): -1 on a null content handle, like the IR variant. -/
def GoDAFF_ContentMS_GetNearestNeighbour (content : Option ContentMS)
    (phi theta : ℚ) (nativeIndex : Int) : Int :=
  match content with
  | none => -1
  | some _ => nativeIndex

/-- GoDAFF_ContentMS_GetRecordCoords (daff_go_wrapper.cpp lines
873-883): false on a null content handle or output pointer. -/
def GoDAFF_ContentMS_GetRecordCoords (content : Option ContentMS)
    (recordIndex : Int) (alphaPtr betaPtr : Bool) (nativeCoords : ℚ × ℚ) :
    Bool × Option (ℚ × ℚ) :=
  match content with
  | none => (false, none)
  | some _ =>
    if alphaPtr && betaPtr then (true, some nativeCoords)
    else (false, none)

/-- GoDAFF_ContentMS_GetMagnitudes (daff_go_wrapper.cpp lines 885-895):
false on a null content or buffer pointer or an undersized buffer;
like the IR variant it discards the native return code. -/
def GoDAFF_ContentMS_GetMagnitudes (content : Option ContentMS)
    (recordIndex channel : Int) (buf : Option (List ℚ)) (bufferSize : Int) :
    Bool × Option (List ℚ) :=
  match content, buf with
  | some c, some b =>
    if bufferSize < (c.numFrequencies : Int) then (false, some b)
    else (true, some (c.getMagnitudes recordIndex channel b).2)
  | _, b => (false, b)

/-- Modelled from the spec: native DAFFContentPS::getPhases, the phase
analogue of getMagnitudes. -/
def ContentPS.getPhases (c : ContentPS) (recordIndex channel : Int)
    (dest : List ℚ) : Int × List ℚ :=
  if 0 ≤ recordIndex ∧ 0 ≤ channel then
    match (c.records.get? recordIndex.toNat).bind fun chans =>
        chans.get? channel.toNat with
    | some payload => (DAFF_NO_ERROR, payload)
    | none => (DAFF_INVALID_INDEX, dest)
  else (DAFF_INVALID_INDEX, dest)

/-- GoDAFF_ContentPS_GetNumFrequencies (daff_go_wrapper.cpp lines
908-914): -1 on a null content handle. -/
def GoDAFF_ContentPS_GetNumFrequencies (content : Option ContentPS) : Int :=
  match content with
  | none => -1
  | some c => (c.numFrequencies : Int)

/-- GoDAFF_ContentPS_GetNearestNeighbour (daff_go_wrapper.cpp lines
916-924): -1 on a null content handle. -/
def GoDAFF_ContentPS_GetNearestNeighbour (content : Option ContentPS)
    (phi theta : ℚ) (nativeIndex : Int) : Int :=
  match content with
  | none => -1
  | some _ => nativeIndex

/-- GoDAFF_ContentPS_GetRecordCoords (daff_go_wrapper.cpp lines
926-936): false on a null content handle or output pointer. -/
def GoDAFF_ContentPS_GetRecordCoords (content : Option ContentPS)
    (recordIndex : Int) (alphaPtr betaPtr : Bool) (nativeCoords : ℚ × ℚ) :
    Bool × Option (ℚ × ℚ) :=
  match content with
  | none => (false, none)
  | some _ =>
    if alphaPtr && betaPtr then (true, some nativeCoords)
    else (false, none)

/-- GoDAFF_ContentPS_GetPhases (daff_go_wrapper.cpp lines 938-948):
false on a null content or buffer pointer or an undersized buffer. -/
def GoDAFF_ContentPS_GetPhases (content : Option ContentPS)
    (recordIndex channel : Int) (buf : Option (List ℚ)) (bufferSize : Int) :
    Bool × Option (List ℚ) :=
  match content, buf with
  | some c, some b =>
    if bufferSize < (c.numFrequencies : Int) then (false, some b)
    else (true, some (c.getPhases recordIndex channel b).2)
  | _, b => (false, b)

/-- GoDAFF_ContentMPS_GetNumFrequencies (daff_go_wrapper.cpp lines
961-967): -1 on a null content handle. -/
def GoDAFF_ContentMPS_GetNumFrequencies (content : Option ContentMPS) : Int :=
  match content with
  | none => -1
  | some c => (c.numFrequencies : Int)

/-- GoDAFF_ContentMPS_GetNearestNeighbour (daff_go_wrapper.cpp lines
969-977): -1 on a null content handle. -/
def GoDAFF_ContentMPS_GetNearestNeighbour (content : Option ContentMPS)
    (phi theta : ℚ) (nativeIndex : Int) : Int :=
  match content with
  | none => -1
  | some _ => nativeIndex

/-- GoDAFF_ContentMPS_GetRecordCoords (daff_go_wrapper.cpp lines
979-989): false on a null content handle or output pointer. -/
def GoDAFF_ContentMPS_GetRecordCoords (content : Option ContentMPS)
    (recordIndex : Int) (alphaPtr betaPtr : Bool) (nativeCoords : ℚ × ℚ) :
    Bool × Option (ℚ × ℚ) :=
  match content with
  | none => (false, none)
  | some _ =>
    if alphaPtr && betaPtr then (true, some nativeCoords)
    else (false, none)

/-- Modelled from the spec: native DAFFContentDFT::getDFTCoeffs,
bounds-checked, writing the record's 2 x numDFTCoeffs interleaved
coefficients, or DAFF_INVALID_INDEX leaving the destination
untouched. -/
def ContentDFT.getDFTCoeffs (c : ContentDFT) (recordIndex channel : Int)
    (dest : List ℚ) : Int × List ℚ :=
  if 0 ≤ recordIndex ∧ 0 ≤ channel then
    match (c.records.get? recordIndex.toNat).bind fun chans =>
        chans.get? channel.toNat with
    | some payload => (DAFF_NO_ERROR, payload)
    | none => (DAFF_INVALID_INDEX, dest)
  else (DAFF_INVALID_INDEX, dest)

/-- GoDAFF_ContentDFT_GetNumDFTCoeffs (daff_go_wrapper.cpp lines
1027-1033): -1 on a null content handle. -/
def GoDAFF_ContentDFT_GetNumDFTCoeffs (content : Option ContentDFT) : Int :=
  match content with
  | none => -1
  | some c => (c.numDFTCoeffs : Int)

/-- GoDAFF_ContentDFT_IsSymmetric (daff_go_wrapper.cpp lines
1035-1041): false on a null content handle. -/
def GoDAFF_ContentDFT_IsSymmetric (content : Option ContentDFT) : Bool :=
  match content with
  | none => false
  | some c => c.isSymmetric

/-- GoDAFF_ContentDFT_GetNearestNeighbour (daff_go_wrapper.cpp lines
1043-1051): -1 on a null content handle. -/
def GoDAFF_ContentDFT_GetNearestNeighbour (content : Option ContentDFT)
    (phi theta : ℚ) (nativeIndex : Int) : Int :=
  match content with
  | none => -1
  | some _ => nativeIndex

/-- GoDAFF_ContentDFT_GetRecordCoords (daff_go_wrapper.cpp lines
1053-1063): false on a null content handle or output pointer. -/
def GoDAFF_ContentDFT_GetRecordCoords (content : Option ContentDFT)
    (recordIndex : Int) (alphaPtr betaPtr : Bool) (nativeCoords : ℚ × ℚ) :
    Bool × Option (ℚ × ℚ) :=
  match content with
  | none => (false, none)
  | some _ =>
    if alphaPtr && betaPtr then (true, some nativeCoords)
    else (false, none)

/-- GoDAFF_ContentDFT_GetDFTCoeffs (daff_go_wrapper.cpp lines
1065-1075): false on a null content or buffer pointer or a buffer
smaller than numDFTCoeffs * 2. -/
def GoDAFF_ContentDFT_GetDFTCoeffs (content : Option ContentDFT)
    (recordIndex channel : Int) (buf : Option (List ℚ)) (bufferSize : Int) :
    Bool × Option (List ℚ) :=
  match content, buf with
  | some c, some b =>
    if bufferSize < (c.numDFTCoeffs : Int) * 2 then (false, some b)
    else (true, some (c.getDFTCoeffs recordIndex channel b).2)
  | _, b => (false, b)

/-! ## Rust wrapper entry points

daff_rust_wrapper.cpp mirrors the Go wrapper function for function;
each definition below transcribes its RustDAFF source body. -/

/-- RustDAFF_OpenFile (daff_rust_wrapper.cpp lines 53-71). -/
def RustDAFF_OpenFile (h : Option Unit) (filenamePtr : Bool)
    (openResult : Int) : Bool :=
  match h with
  | none => false
  | some _ => if filenamePtr then decide (openResult = DAFF_NO_ERROR) else false

/-- RustDAFF_IsValid (daff_rust_wrapper.cpp lines 81-87). -/
def RustDAFF_IsValid (h : Option Bool) : Bool :=
  match h with
  | none => false
  | some fileOpened => fileOpened

/-- RustDAFF_HasMetadata (daff_rust_wrapper.cpp lines 168-174). -/
def RustDAFF_HasMetadata (h : Option Metadata) (k : Option String) : Bool :=
  match h, k with
  | some m, some key => m.hasKey key
  | _, _ => false

/-- RustDAFF_GetMetadataString (daff_rust_wrapper.cpp lines 176-186). -/
def RustDAFF_GetMetadataString (h : Option Metadata) (k : Option String) :
    Option String :=
  match h, k with
  | some m, some key =>
    if m.hasKey key then some (m.getKeyString key) else none
  | _, _ => none

/-- RustDAFF_GetMetadataFloat (daff_rust_wrapper.cpp lines 188-197). -/
def RustDAFF_GetMetadataFloat (h : Option Metadata) (k : Option String) :
    Option ℚ :=
  match h, k with
  | some m, some key =>
    if m.hasKey key then some (m.getKeyFloat key) else none
  | _, _ => none

/-- RustDAFF_GetMetadataBool (daff_rust_wrapper.cpp lines 199-208). -/
def RustDAFF_GetMetadataBool (h : Option Metadata) (k : Option String) :
    Option Bool :=
  match h, k with
  | some m, some key =>
    if m.hasKey key then some (m.getKeyBool key) else none
  | _, _ => none

/-- RustDAFF_GetContentMS (daff_rust_wrapper.cpp lines 272-280). -/
def RustDAFF_GetContentMS (h : Option DAFFReader) : Option ContentMS :=
  match h with
  | none => none
  | some r =>
    if r.getContentType = ContentType.ms then
      match r.content with
      | .ms c => some c
      | _ => none
    else none

/-- RustDAFF_GetContentPS (daff_rust_wrapper.cpp lines 325-333). -/
def RustDAFF_GetContentPS (h : Option DAFFReader) : Option ContentPS :=
  match h with
  | none => none
  | some r =>
    if r.getContentType = ContentType.ps then
      match r.content with
      | .ps c => some c
      | _ => none
    else none

/-- RustDAFF_GetContentMPS (daff_rust_wrapper.cpp lines 378-386). -/
def RustDAFF_GetContentMPS (h : Option DAFFReader) : Option ContentMPS :=
  match h with
  | none => none
  | some r =>
    if r.getContentType = ContentType.mps then
      match r.content with
      | .mps c => some c
      | _ => none
    else none

/-- RustDAFF_GetContentDFT (daff_rust_wrapper.cpp lines 444-452). -/
def RustDAFF_GetContentDFT (h : Option DAFFReader) : Option ContentDFT :=
  match h with
  | none => none
  | some r =>
    if r.getContentType = ContentType.dft then
      match r.content with
      | .dft c => some c
      | _ => none
    else none

/-- RustDAFF_ContentIR_GetFilterLength (daff_rust_wrapper.cpp lines
221-227). -/
def RustDAFF_ContentIR_GetFilterLength (content : Option ContentIR) : Int :=
  match content with
  | none => -1
  | some c => (c.filterLength : Int)

/-- RustDAFF_ContentIR_GetSamplerate (daff_rust_wrapper.cpp lines
229-235). -/
def RustDAFF_ContentIR_GetSamplerate (content : Option ContentIR) : Int :=
  match content with
  | none => -1
  | some c => (c.samplerate : Int)

/-- RustDAFF_ContentIR_GetNearestNeighbour (daff_rust_wrapper.cpp lines
237-245). -/
def RustDAFF_ContentIR_GetNearestNeighbour (content : Option ContentIR)
    (phi theta : ℚ) (nativeIndex : Int) : Int :=
  match content with
  | none => -1
  | some _ => nativeIndex

/-- RustDAFF_ContentIR_GetRecordCoords (daff_rust_wrapper.cpp lines
247-257). -/
def RustDAFF_ContentIR_GetRecordCoords (content : Option ContentIR)
    (recordIndex : Int) (alphaPtr betaPtr : Bool) (nativeCoords : ℚ × ℚ) :
    Bool × Option (ℚ × ℚ) :=
  match content with
  | none => (false, none)
  | some _ =>
    if alphaPtr && betaPtr then (true, some nativeCoords)
    else (false, none)

/-- RustDAFF_ContentIR_GetFilterCoeffs (daff_rust_wrapper.cpp lines
259-269): same body as the Go variant, including discarding the native
return code. -/
def RustDAFF_ContentIR_GetFilterCoeffs (content : Option ContentIR)
    (recordIndex channel : Int) (buf : Option (List ℚ)) (bufferSize : Int) :
    Bool × Option (List ℚ) :=
  match content, buf with
  | some c, some b =>
    if bufferSize < (c.filterLength : Int) then (false, some b)
    else (true, some (c.getFilterCoeffs recordIndex channel b).2)
  | _, b => (false, b)

/-- RustDAFF_ContentMS_GetNumFrequencies (daff_rust_wrapper.cpp lines
282-288). -/
def RustDAFF_ContentMS_GetNumFrequencies (content : Option ContentMS) : Int :=
  match content with
  | none => -1
  | some c => (c.numFrequencies : Int)

/-- RustDAFF_ContentMS_GetNearestNeighbour (daff_rust_wrapper.cpp lines
290-298). -/
def RustDAFF_ContentMS_GetNearestNeighbour (content : Option ContentMS)
    (phi theta : ℚ) (nativeIndex : Int) : Int :=
  match content with
  | none => -1
  | some _ => nativeIndex

/-- RustDAFF_ContentMS_GetRecordCoords (daff_rust_wrapper.cpp lines
300-310). -/
def RustDAFF_ContentMS_GetRecordCoords (content : Option ContentMS)
    (recordIndex : Int) (alphaPtr betaPtr : Bool) (nativeCoords : ℚ × ℚ) :
    Bool × Option (ℚ × ℚ) :=
  match content with
  | none => (false, none)
  | some _ =>
    if alphaPtr && betaPtr then (true, some nativeCoords)
    else (false, none)

/-- RustDAFF_ContentMS_GetMagnitudes (daff_rust_wrapper.cpp lines
312-322). -/
def RustDAFF_ContentMS_GetMagnitudes (content : Option ContentMS)
    (recordIndex channel : Int) (buf : Option (List ℚ)) (bufferSize : Int) :
    Bool × Option (List ℚ) :=
  match content, buf with
  | some c, some b =>
    if bufferSize < (c.numFrequencies : Int) then (false, some b)
    else (true, some (c.getMagnitudes recordIndex channel b).2)
  | _, b => (false, b)

/-- RustDAFF_ContentPS_GetNumFrequencies (daff_rust_wrapper.cpp lines
335-341). -/
def RustDAFF_ContentPS_GetNumFrequencies (content : Option ContentPS) : Int :=
  match content with
  | none => -1
  | some c => (c.numFrequencies : Int)

/-- RustDAFF_ContentPS_GetNearestNeighbour (daff_rust_wrapper.cpp lines
343-351). -/
def RustDAFF_ContentPS_GetNearestNeighbour (content : Option ContentPS)
    (phi theta : ℚ) (nativeIndex : Int) : Int :=
  match content with
  | none => -1
  | some _ => nativeIndex

/-- RustDAFF_ContentPS_GetRecordCoords (daff_rust_wrapper.cpp lines
353-363). -/
def RustDAFF_ContentPS_GetRecordCoords (content : Option ContentPS)
    (recordIndex : Int) (alphaPtr betaPtr : Bool) (nativeCoords : ℚ × ℚ) :
    Bool × Option (ℚ × ℚ) :=
  match content with
  | none => (false, none)
  | some _ =>
    if alphaPtr && betaPtr then (true, some nativeCoords)
    else (false, none)

/-- RustDAFF_ContentPS_GetPhases (daff_rust_wrapper.cpp lines
365-375). -/
def RustDAFF_ContentPS_GetPhases (content : Option ContentPS)
    (recordIndex channel : Int) (buf : Option (List ℚ)) (bufferSize : Int) :
    Bool × Option (List ℚ) :=
  match content, buf with
  | some c, some b =>
    if bufferSize < (c.numFrequencies : Int) then (false, some b)
    else (true, some (c.getPhases recordIndex channel b).2)
  | _, b => (false, b)

/-- RustDAFF_ContentMPS_GetNumFrequencies (daff_rust_wrapper.cpp lines
388-394). -/
def RustDAFF_ContentMPS_GetNumFrequencies (content : Option ContentMPS) :
    Int :=
  match content with
  | none => -1
  | some c => (c.numFrequencies : Int)

/-- RustDAFF_ContentMPS_GetNearestNeighbour (daff_rust_wrapper.cpp lines
396-404). -/
def RustDAFF_ContentMPS_GetNearestNeighbour (content : Option ContentMPS)
    (phi theta : ℚ) (nativeIndex : Int) : Int :=
  match content with
  | none => -1
  | some _ => nativeIndex

/-- RustDAFF_ContentMPS_GetRecordCoords (daff_rust_wrapper.cpp lines
406-416). -/
def RustDAFF_ContentMPS_GetRecordCoords (content : Option ContentMPS)
    (recordIndex : Int) (alphaPtr betaPtr : Bool) (nativeCoords : ℚ × ℚ) :
    Bool × Option (ℚ × ℚ) :=
  match content with
  | none => (false, none)
  | some _ =>
    if alphaPtr && betaPtr then (true, some nativeCoords)
    else (false, none)

/-- RustDAFF_ContentMPS_GetCoefficients (daff_rust_wrapper.cpp lines
418-441): same body as the Go variant (claim C6). -/
def RustDAFF_ContentMPS_GetCoefficients (content : Option ContentMPS)
    (recordIndex channel : Nat) (bufferSize : Nat) :
    Option (List ℚ × List ℚ) :=
  match content with
  | none => none
  | some c =>
    if bufferSize < c.numFrequencies then none
    else
      match c.getCoefficientsMP recordIndex channel with
      | none => none
      | some interleaved =>
        some ((List.range c.numFrequencies).map fun i =>
                interleaved.getD (2 * i) 0,
              (List.range c.numFrequencies).map fun i =>
                interleaved.getD (2 * i + 1) 0)

/-- RustDAFF_ContentDFT_GetNumDFTCoeffs (daff_rust_wrapper.cpp lines
454-460). -/
def RustDAFF_ContentDFT_GetNumDFTCoeffs (content : Option ContentDFT) :
    Int :=
  match content with
  | none => -1
  | some c => (c.numDFTCoeffs : Int)

/-- RustDAFF_ContentDFT_IsSymmetric (daff_rust_wrapper.cpp lines
462-468). -/
def RustDAFF_ContentDFT_IsSymmetric (content : Option ContentDFT) : Bool :=
  match content with
  | none => false
  | some c => c.isSymmetric

/-- RustDAFF_ContentDFT_GetNearestNeighbour (daff_rust_wrapper.cpp lines
470-478). -/
def RustDAFF_ContentDFT_GetNearestNeighbour (content : Option ContentDFT)
    (phi theta : ℚ) (nativeIndex : Int) : Int :=
  match content with
  | none => -1
  | some _ => nativeIndex

/-- RustDAFF_ContentDFT_GetRecordCoords (daff_rust_wrapper.cpp lines
480-490). -/
def RustDAFF_ContentDFT_GetRecordCoords (content : Option ContentDFT)
    (recordIndex : Int) (alphaPtr betaPtr : Bool) (nativeCoords : ℚ × ℚ) :
    Bool × Option (ℚ × ℚ) :=
  match content with
  | none => (false, none)
  | some _ =>
    if alphaPtr && betaPtr then (true, some nativeCoords)
    else (false, none)

/-- RustDAFF_ContentDFT_GetDFTCoeffs (daff_rust_wrapper.cpp lines
492-502). -/
def RustDAFF_ContentDFT_GetDFTCoeffs (content : Option ContentDFT)
    (recordIndex channel : Int) (buf : Option (List ℚ)) (bufferSize : Int) :
    Bool × Option (List ℚ) :=
  match content, buf with
  | some c, some b =>
    if bufferSize < (c.numDFTCoeffs : Int) * 2 then (false, some b)
    else (true, some (c.getDFTCoeffs recordIndex channel b).2)
  | _, b => (false, b)

/-! ## Theorems -/

/-- C1: the claim states that the DFT data accessor returns the record's
interleaved real/imaginary coefficients, all 2 x numDFTCoeffs floats,
untruncated.  The Go accessor does (it allocates numCoeffs * 2 floats),
but the DFT branch of the Python GetRecordPython allocates only
numDFTCoeffs floats while the native getDFTCoeffs fills 2 x numDFTCoeffs
and the conversion loop reads indices up to 2 x numDFTCoeffs - 1: at the
spec's concrete scenario numDFTCoeffs = 64 the buffer holds 64 floats,
128 are written, and index 127 is read - past the allocation, so the
upper half of the returned values is not the record's coefficients. -/
theorem C1_pydaff_dft_reads_past_allocation :
    nativeDFTWriteLen 64 = 128 ∧
    pydaffDFTAllocLen 64 = 64 ∧
    127 ∈ pydaffDFTReadIndices 64 ∧
    ((pydaffDFTReadIndices 64).any fun j =>
      decide (pydaffDFTAllocLen 64 ≤ j)) = true := by
  decide

/-- C2 counterexample: a metadata table whose only key "k" stores a
string.  The claim says getFloat on it fails with TypeMismatchError;
instead GoDAFF_GetMetadataFloat succeeds and hands back a value (the
modelled coercion, 0), because the wrapper only checks hasKey and never
the stored type. -/
theorem C2_cx_wrong_typed_get_succeeds :
    (Metadata.lookupVal [("k", MetaValue.stringVal "hello")] "k"
      = some (MetaValue.stringVal "hello")) ∧
    GoDAFF_GetMetadataFloat (some [("k", MetaValue.stringVal "hello")])
      (some "k") = some 0 := by
  constructor <;> rfl

/-- C2 (amended): at the Go wrapper boundary the typed metadata getters
fail exactly when the key is absent (key-not-found); a getter invoked on
a present key succeeds regardless of the stored type, returning the
underlying native getter's value - no type mismatch is detected. -/
theorem C2_typed_getters_fail_iff_absent (m : Metadata) (k : String) :
    (GoDAFF_GetMetadataFloat (some m) (some k) = none
      ↔ m.hasKey k = false) ∧
    (GoDAFF_GetMetadataBool (some m) (some k) = none
      ↔ m.hasKey k = false) := by
  by_cases h : m.hasKey k <;>
    simp [GoDAFF_GetMetadataFloat, GoDAFF_GetMetadataBool, h]

/-- C3: the claim states that the per-record accessor rejects an
out-of-range record or channel index with IndexOutOfRangeError.  On an
IR file with one record, one channel and filter length 2, the Go
accessor called at recordIndex = recordCount (and at channel =
channelCount) instead reports success and hands back the untouched
zeroed buffer, because GoDAFF_ContentIR_GetFilterCoeffs discards the
native return code - which, third conjunct, is DAFF_INVALID_INDEX. -/
theorem C3_out_of_range_read_reports_success :
    ContentIR.GetFilterCoeffs ⟨2, 44100, [[[1, 2]]]⟩ 1 0 = some [0, 0] ∧
    ContentIR.GetFilterCoeffs ⟨2, 44100, [[[1, 2]]]⟩ 0 1 = some [0, 0] ∧
    (ContentIR.getFilterCoeffs ⟨2, 44100, [[[1, 2]]]⟩ 1 0
      (List.replicate 2 0)).1 = DAFF_INVALID_INDEX := by
  refine ⟨?_, ?_, ?_⟩ <;> rfl

/-- C4: a failed open is atomic.  Whenever the native openFile call does
not return DAFF_NO_ERROR, daff_open returns an error and no handle, the
global handle table and counter are exactly as before, and in particular
every handle is valid afterwards iff it was valid before - previously
opened handles are unaffected and no partial handle is registered. -/
theorem C4_failed_open_is_atomic (s : PyState) (e : Int) (f : PyReader)
    (he : e ≠ DAFF_NO_ERROR) :
    (daff_open s e f).1 = none ∧
    (daff_open s e f).2 = s ∧
    ∀ h, ((daff_open s e f).2).validHandle h = s.validHandle h := by
  refine ⟨?_, ?_, ?_⟩ <;> simp [daff_open, he]

/-- Witness for C4 at a concrete state holding one open handle and a
failing open result. -/
theorem C4_witness :
    (daff_open ⟨[(1, ⟨1⟩)], 1⟩ 1 ⟨2⟩).1 = none ∧
    (daff_open ⟨[(1, ⟨1⟩)], 1⟩ 1 ⟨2⟩).2 = ⟨[(1, ⟨1⟩)], 1⟩ :=
  ⟨(C4_failed_open_is_atomic ⟨[(1, ⟨1⟩)], 1⟩ 1 ⟨2⟩ (by decide)).1,
   (C4_failed_open_is_atomic ⟨[(1, ⟨1⟩)], 1⟩ 1 ⟨2⟩ (by decide)).2.1⟩

/-- C5: for every open file, each content accessor variant succeeds
exactly when the file's content type matches the requested variant, and
fails (null result, the WrongContentTypeError signal) otherwise; the
Rust dispatch behaves identically. -/
theorem C5_content_dispatch_matches_type (r : DAFFReader) :
    ((GoDAFF_GetContentIR (some r)).isSome
      ↔ r.getContentType = ContentType.ir) ∧
    ((GoDAFF_GetContentMS (some r)).isSome
      ↔ r.getContentType = ContentType.ms) ∧
    ((GoDAFF_GetContentPS (some r)).isSome
      ↔ r.getContentType = ContentType.ps) ∧
    ((GoDAFF_GetContentMPS (some r)).isSome
      ↔ r.getContentType = ContentType.mps) ∧
    ((GoDAFF_GetContentDFT (some r)).isSome
      ↔ r.getContentType = ContentType.dft) ∧
    ((RustDAFF_GetContentIR (some r)).isSome
      ↔ r.getContentType = ContentType.ir) := by
  obtain ⟨c⟩ := r
  cases c <;>
    simp [GoDAFF_GetContentIR, GoDAFF_GetContentMS, GoDAFF_GetContentPS,
      GoDAFF_GetContentMPS, GoDAFF_GetContentDFT, RustDAFF_GetContentIR,
      DAFFReader.getContentType, DAFFContent.typeOf]

/-- C9: null-handle totality of the C wrapper boundary.  Every Go and
Rust wrapper function that takes a reader or content handle and returns
a value yields its failure sentinel on a null handle - nullptr (none)
for the pointer-returning functions, false for the bool-returning ones,
-1 for the int-returning ones and -1.0 for the float-returning ones -
and the functions with required argument or output pointers (filename,
metadata key, orientation angles, record coordinates, data buffers)
likewise fail when any of those is null.  The embedded functions are
pure, so no dereference or other effect occurs. -/
theorem C9_null_handle_totality :
    (∀ fp res, GoDAFF_OpenFile none fp res = false) ∧
    (∀ u res, GoDAFF_OpenFile (some u) false res = false) ∧
    GoDAFF_IsValid none = false ∧
    GoDAFF_GetContentType none = -1 ∧
    GoDAFF_GetQuantization none = -1 ∧
    GoDAFF_GetNumChannels none = -1 ∧
    GoDAFF_GetNumRecords none = -1 ∧
    GoDAFF_GetAlphaResolution none = -1 ∧
    GoDAFF_GetBetaResolution none = -1 ∧
    GoDAFF_GetAlphaPoints none = -1 ∧
    GoDAFF_GetBetaPoints none = -1 ∧
    (∀ y p q, GoDAFF_GetOrientationYPR none y p q = (-1, none)) ∧
    (∀ r p q, GoDAFF_GetOrientationYPR (some r) false p q = (-1, none)) ∧
    (∀ r q, GoDAFF_GetOrientationYPR (some r) true false q = (-1, none)) ∧
    (∀ r, GoDAFF_GetOrientationYPR (some r) true true false = (-1, none)) ∧
    (∀ k, GoDAFF_HasMetadata none k = false) ∧
    (∀ m, GoDAFF_HasMetadata (some m) none = false) ∧
    (∀ k, GoDAFF_GetMetadataString none k = none) ∧
    (∀ m, GoDAFF_GetMetadataString (some m) none = none) ∧
    (∀ k, GoDAFF_GetMetadataFloat none k = none) ∧
    (∀ m, GoDAFF_GetMetadataFloat (some m) none = none) ∧
    (∀ k, GoDAFF_GetMetadataBool none k = none) ∧
    (∀ m, GoDAFF_GetMetadataBool (some m) none = none) ∧
    GoDAFF_GetContentIR none = none ∧
    GoDAFF_GetContentMS none = none ∧
    GoDAFF_GetContentPS none = none ∧
    GoDAFF_GetContentMPS none = none ∧
    GoDAFF_GetContentDFT none = none ∧
    GoDAFF_ContentIR_GetFilterLength none = -1 ∧
    GoDAFF_ContentIR_GetSamplerate none = -1 ∧
    (∀ phi th ni, GoDAFF_ContentIR_GetNearestNeighbour none phi th ni
      = -1) ∧
    (∀ ri a b nc, GoDAFF_ContentIR_GetRecordCoords none ri a b nc
      = (false, none)) ∧
    (∀ x ri b nc, GoDAFF_ContentIR_GetRecordCoords (some x) ri false b nc
      = (false, none)) ∧
    (∀ x ri nc, GoDAFF_ContentIR_GetRecordCoords (some x) ri true false nc
      = (false, none)) ∧
    (∀ ri ch buf bs, GoDAFF_ContentIR_GetFilterCoeffs none ri ch buf bs
      = (false, buf)) ∧
    (∀ x ri ch bs, GoDAFF_ContentIR_GetFilterCoeffs (some x) ri ch none bs
      = (false, none)) ∧
    GoDAFF_ContentMS_GetNumFrequencies none = -1 ∧
    (∀ phi th ni, GoDAFF_ContentMS_GetNearestNeighbour none phi th ni
      = -1) ∧
    (∀ ri a b nc, GoDAFF_ContentMS_GetRecordCoords none ri a b nc
      = (false, none)) ∧
    (∀ x ri b nc, GoDAFF_ContentMS_GetRecordCoords (some x) ri false b nc
      = (false, none)) ∧
    (∀ x ri nc, GoDAFF_ContentMS_GetRecordCoords (some x) ri true false nc
      = (false, none)) ∧
    (∀ ri ch buf bs, GoDAFF_ContentMS_GetMagnitudes none ri ch buf bs
      = (false, buf)) ∧
    (∀ x ri ch bs, GoDAFF_ContentMS_GetMagnitudes (some x) ri ch none bs
      = (false, none)) ∧
    GoDAFF_ContentPS_GetNumFrequencies none = -1 ∧
    (∀ phi th ni, GoDAFF_ContentPS_GetNearestNeighbour none phi th ni
      = -1) ∧
    (∀ ri a b nc, GoDAFF_ContentPS_GetRecordCoords none ri a b nc
      = (false, none)) ∧
    (∀ x ri b nc, GoDAFF_ContentPS_GetRecordCoords (some x) ri false b nc
      = (false, none)) ∧
    (∀ x ri nc, GoDAFF_ContentPS_GetRecordCoords (some x) ri true false nc
      = (false, none)) ∧
    (∀ ri ch buf bs, GoDAFF_ContentPS_GetPhases none ri ch buf bs
      = (false, buf)) ∧
    (∀ x ri ch bs, GoDAFF_ContentPS_GetPhases (some x) ri ch none bs
      = (false, none)) ∧
    GoDAFF_ContentMPS_GetNumFrequencies none = -1 ∧
    (∀ phi th ni, GoDAFF_ContentMPS_GetNearestNeighbour none phi th ni
      = -1) ∧
    (∀ ri a b nc, GoDAFF_ContentMPS_GetRecordCoords none ri a b nc
      = (false, none)) ∧
    (∀ x ri b nc, GoDAFF_ContentMPS_GetRecordCoords (some x) ri false b nc
      = (false, none)) ∧
    (∀ x ri nc, GoDAFF_ContentMPS_GetRecordCoords (some x) ri true false nc
      = (false, none)) ∧
    (∀ ri ch bs, GoDAFF_ContentMPS_GetCoefficients none ri ch bs
      = none) ∧
    GoDAFF_ContentDFT_GetNumDFTCoeffs none = -1 ∧
    GoDAFF_ContentDFT_IsSymmetric none = false ∧
    (∀ phi th ni, GoDAFF_ContentDFT_GetNearestNeighbour none phi th ni
      = -1) ∧
    (∀ ri a b nc, GoDAFF_ContentDFT_GetRecordCoords none ri a b nc
      = (false, none)) ∧
    (∀ x ri b nc, GoDAFF_ContentDFT_GetRecordCoords (some x) ri false b nc
      = (false, none)) ∧
    (∀ x ri nc, GoDAFF_ContentDFT_GetRecordCoords (some x) ri true false nc
      = (false, none)) ∧
    (∀ ri ch buf bs, GoDAFF_ContentDFT_GetDFTCoeffs none ri ch buf bs
      = (false, buf)) ∧
    (∀ x ri ch bs, GoDAFF_ContentDFT_GetDFTCoeffs (some x) ri ch none bs
      = (false, none)) ∧
    (∀ fp res, RustDAFF_OpenFile none fp res = false) ∧
    (∀ u res, RustDAFF_OpenFile (some u) false res = false) ∧
    RustDAFF_IsValid none = false ∧
    RustDAFF_GetContentType none = -1 ∧
    RustDAFF_GetQuantization none = -1 ∧
    RustDAFF_GetNumChannels none = -1 ∧
    RustDAFF_GetNumRecords none = -1 ∧
    RustDAFF_GetAlphaResolution none = -1 ∧
    RustDAFF_GetBetaResolution none = -1 ∧
    RustDAFF_GetAlphaPoints none = -1 ∧
    RustDAFF_GetBetaPoints none = -1 ∧
    (∀ y p q, RustDAFF_GetOrientationYPR none y p q = (-1, none)) ∧
    (∀ r p q, RustDAFF_GetOrientationYPR (some r) false p q = (-1, none)) ∧
    (∀ r q, RustDAFF_GetOrientationYPR (some r) true false q
      = (-1, none)) ∧
    (∀ r, RustDAFF_GetOrientationYPR (some r) true true false
      = (-1, none)) ∧
    (∀ k, RustDAFF_HasMetadata none k = false) ∧
    (∀ m, RustDAFF_HasMetadata (some m) none = false) ∧
    (∀ k, RustDAFF_GetMetadataString none k = none) ∧
    (∀ m, RustDAFF_GetMetadataString (some m) none = none) ∧
    (∀ k, RustDAFF_GetMetadataFloat none k = none) ∧
    (∀ m, RustDAFF_GetMetadataFloat (some m) none = none) ∧
    (∀ k, RustDAFF_GetMetadataBool none k = none) ∧
    (∀ m, RustDAFF_GetMetadataBool (some m) none = none) ∧
    RustDAFF_GetContentIR none = none ∧
    RustDAFF_GetContentMS none = none ∧
    RustDAFF_GetContentPS none = none ∧
    RustDAFF_GetContentMPS none = none ∧
    RustDAFF_GetContentDFT none = none ∧
    RustDAFF_ContentIR_GetFilterLength none = -1 ∧
    RustDAFF_ContentIR_GetSamplerate none = -1 ∧
    (∀ phi th ni, RustDAFF_ContentIR_GetNearestNeighbour none phi th ni
      = -1) ∧
    (∀ ri a b nc, RustDAFF_ContentIR_GetRecordCoords none ri a b nc
      = (false, none)) ∧
    (∀ x ri b nc, RustDAFF_ContentIR_GetRecordCoords (some x) ri false b nc
      = (false, none)) ∧
    (∀ x ri nc, RustDAFF_ContentIR_GetRecordCoords (some x) ri true false nc
      = (false, none)) ∧
    (∀ ri ch buf bs, RustDAFF_ContentIR_GetFilterCoeffs none ri ch buf bs
      = (false, buf)) ∧
    (∀ x ri ch bs, RustDAFF_ContentIR_GetFilterCoeffs (some x) ri ch none bs
      = (false, none)) ∧
    RustDAFF_ContentMS_GetNumFrequencies none = -1 ∧
    (∀ phi th ni, RustDAFF_ContentMS_GetNearestNeighbour none phi th ni
      = -1) ∧
    (∀ ri a b nc, RustDAFF_ContentMS_GetRecordCoords none ri a b nc
      = (false, none)) ∧
    (∀ x ri b nc, RustDAFF_ContentMS_GetRecordCoords (some x) ri false b nc
      = (false, none)) ∧
    (∀ x ri nc, RustDAFF_ContentMS_GetRecordCoords (some x) ri true false nc
      = (false, none)) ∧
    (∀ ri ch buf bs, RustDAFF_ContentMS_GetMagnitudes none ri ch buf bs
      = (false, buf)) ∧
    (∀ x ri ch bs, RustDAFF_ContentMS_GetMagnitudes (some x) ri ch none bs
      = (false, none)) ∧
    RustDAFF_ContentPS_GetNumFrequencies none = -1 ∧
    (∀ phi th ni, RustDAFF_ContentPS_GetNearestNeighbour none phi th ni
      = -1) ∧
    (∀ ri a b nc, RustDAFF_ContentPS_GetRecordCoords none ri a b nc
      = (false, none)) ∧
    (∀ x ri b nc, RustDAFF_ContentPS_GetRecordCoords (some x) ri false b nc
      = (false, none)) ∧
    (∀ x ri nc, RustDAFF_ContentPS_GetRecordCoords (some x) ri true false nc
      = (false, none)) ∧
    (∀ ri ch buf bs, RustDAFF_ContentPS_GetPhases none ri ch buf bs
      = (false, buf)) ∧
    (∀ x ri ch bs, RustDAFF_ContentPS_GetPhases (some x) ri ch none bs
      = (false, none)) ∧
    RustDAFF_ContentMPS_GetNumFrequencies none = -1 ∧
    (∀ phi th ni, RustDAFF_ContentMPS_GetNearestNeighbour none phi th ni
      = -1) ∧
    (∀ ri a b nc, RustDAFF_ContentMPS_GetRecordCoords none ri a b nc
      = (false, none)) ∧
    (∀ x ri b nc, RustDAFF_ContentMPS_GetRecordCoords (some x) ri false b nc
      = (false, none)) ∧
    (∀ x ri nc, RustDAFF_ContentMPS_GetRecordCoords (some x) ri true false nc
      = (false, none)) ∧
    (∀ ri ch bs, RustDAFF_ContentMPS_GetCoefficients none ri ch bs
      = none) ∧
    RustDAFF_ContentDFT_GetNumDFTCoeffs none = -1 ∧
    RustDAFF_ContentDFT_IsSymmetric none = false ∧
    (∀ phi th ni, RustDAFF_ContentDFT_GetNearestNeighbour none phi th ni
      = -1) ∧
    (∀ ri a b nc, RustDAFF_ContentDFT_GetRecordCoords none ri a b nc
      = (false, none)) ∧
    (∀ x ri b nc, RustDAFF_ContentDFT_GetRecordCoords (some x) ri false b nc
      = (false, none)) ∧
    (∀ x ri nc, RustDAFF_ContentDFT_GetRecordCoords (some x) ri true false nc
      = (false, none)) ∧
    (∀ ri ch buf bs, RustDAFF_ContentDFT_GetDFTCoeffs none ri ch buf bs
      = (false, buf)) ∧
    (∀ x ri ch bs, RustDAFF_ContentDFT_GetDFTCoeffs (some x) ri ch none bs
      = (false, none)) := by
  repeat' apply And.intro
  all_goals intros
  all_goals rfl

/-- C6: for every MPS file and every valid record and channel (the
native fetch succeeds and the interleaved payload has its declared
length 2 x numFrequencies), the Go accessor returns parallel magnitude
and phase sequences of length numFrequencies with magnitudes[i] equal to
element 2i and phases[i] equal to element 2i+1 of the interleaved
(Mag, Ph) payload, for every i below numFrequencies. -/
theorem C6_mps_parallel_deinterleave (c : ContentMPS)
    (recordIndex channel : Nat) (inter : List ℚ)
    (hfetch : c.getCoefficientsMP recordIndex channel = some inter)
    (_hlen : inter.length = 2 * c.numFrequencies) :
    ∃ mags phases,
      c.GetCoefficients recordIndex channel = some (mags, phases) ∧
      mags.length = c.numFrequencies ∧
      phases.length = c.numFrequencies ∧
      ∀ i, i < c.numFrequencies →
        mags.getD i 0 = inter.getD (2 * i) 0 ∧
        phases.getD i 0 = inter.getD (2 * i + 1) 0 := by
  refine ⟨(List.range c.numFrequencies).map fun i => inter.getD (2 * i) 0,
    (List.range c.numFrequencies).map fun i => inter.getD (2 * i + 1) 0,
    ?_, ?_, ?_, ?_⟩
  · simp [ContentMPS.GetCoefficients, GoDAFF_ContentMPS_GetCoefficients,
      hfetch]
  · simp
  · simp
  · intro i hi
    constructor <;>
      · rw [List.getD_eq_getElem?_getD, List.getElem?_map,
          List.getElem?_range hi]
        rfl

/-- Witness for C6 on a concrete two-frequency MPS file. -/
theorem C6_witness :
    ContentMPS.getCoefficientsMP ⟨2, [[[1, 10, 2, 20]]]⟩ 0 0
      = some [1, 10, 2, 20] ∧
    ∃ mags phases,
      ContentMPS.GetCoefficients ⟨2, [[[1, 10, 2, 20]]]⟩ 0 0
        = some (mags, phases) ∧
      mags.length = 2 ∧
      phases.length = 2 ∧
      ∀ i, i < 2 →
        mags.getD i 0 = List.getD [1, 10, 2, 20] (2 * i) 0 ∧
        phases.getD i 0 = List.getD [1, 10, 2, 20] (2 * i + 1) 0 :=
  ⟨rfl, C6_mps_parallel_deinterleave ⟨2, [[[1, 10, 2, 20]]]⟩ 0 0
    [1, 10, 2, 20] rfl rfl⟩

/-- A handle is valid exactly when it is a key of the table. -/
theorem validHandle_iff (s : PyState) (h : Nat) :
    s.validHandle h = true ↔ ∃ p ∈ s.table, p.1 = h := by
  simp [PyState.validHandle, List.any_eq_true]

/-- A handle is invalid exactly when it is no key of the table. -/
theorem validHandle_false_iff (s : PyState) (h : Nat) :
    s.validHandle h = false ↔ ∀ p ∈ s.table, p.1 ≠ h := by
  rw [← Bool.not_eq_true, validHandle_iff]
  push_neg
  rfl

/-- daff_close never changes the handle counter. -/
theorem daff_close_lastHandle (s : PyState) (h : Nat) :
    ((daff_close s h).2).lastHandle = s.lastHandle := by
  unfold daff_close
  by_cases hv : s.validHandle h <;> simp [hv]

/-- A successful or failed open preserves the table invariant, never
decreases the counter, and keeps a stale handle (one at most the counter
and not in the table) invalid. -/
theorem daff_open_stale (s : PyState) (e : Int) (f : PyReader) (h : Nat)
    (hinv : s.inv) (hle : h ≤ s.lastHandle) (hnv : s.validHandle h = false) :
    ((daff_open s e f).2).inv ∧
    h ≤ ((daff_open s e f).2).lastHandle ∧
    ((daff_open s e f).2).validHandle h = false := by
  by_cases he : e = DAFF_NO_ERROR
  · have hopen : daff_open s e f
        = (some (s.lastHandle + 1),
           ⟨(s.lastHandle + 1, f) :: s.table, s.lastHandle + 1⟩) := by
      simp [daff_open, he]
    rw [hopen]
    refine ⟨?_, Nat.le_succ_of_le hle, ?_⟩
    · intro p hp
      rcases List.mem_cons.mp hp with hhead | htail
      · simp [hhead]
      · exact le_trans (hinv p htail) (Nat.le_succ _)
    · rw [validHandle_false_iff] at hnv ⊢
      intro p hp
      rcases List.mem_cons.mp hp with hhead | htail
      · simp only [hhead]
        omega
      · exact hnv p htail
  · simpa [daff_open, he] using ⟨hinv, hle, hnv⟩

/-- Closing any handle preserves the table invariant, the counter, and
the invalidity of a stale handle. -/
theorem daff_close_stale (s : PyState) (h2 : Nat) (h : Nat)
    (hinv : s.inv) (hle : h ≤ s.lastHandle) (hnv : s.validHandle h = false) :
    ((daff_close s h2).2).inv ∧
    h ≤ ((daff_close s h2).2).lastHandle ∧
    ((daff_close s h2).2).validHandle h = false := by
  unfold daff_close
  by_cases hv : s.validHandle h2
  · simp only [hv, if_pos rfl]
    refine ⟨?_, hle, ?_⟩
    · intro p hp
      exact hinv p (List.mem_of_mem_filter hp)
    · rw [validHandle_false_iff] at hnv ⊢
      intro p hp
      exact hnv p (List.mem_of_mem_filter hp)
  · simpa [hv] using ⟨hinv, hle, hnv⟩

/-- Running a call sequence from a state keeps a stale handle stale:
still at most the counter, still invalid, with the invariant intact. -/
theorem pyRun_stale (ops : List PyOp) (s : PyState) (h : Nat)
    (hinv : s.inv) (hle : h ≤ s.lastHandle) (hnv : s.validHandle h = false) :
    (pyRunState s ops).inv ∧
    h ≤ (pyRunState s ops).lastHandle ∧
    (pyRunState s ops).validHandle h = false := by
  induction ops generalizing s with
  | nil => exact ⟨hinv, hle, hnv⟩
  | cons op rest ih =>
    cases op with
    | openFile e f =>
      have hstep := daff_open_stale s e f h hinv hle hnv
      have hrun : pyRunState s (PyOp.openFile e f :: rest)
          = pyRunState ((daff_open s e f).2) rest := by
        simp only [pyRunState, pyRun]
        rcases hopen : daff_open s e f with ⟨res, s1⟩
        cases res <;> simp [hopen]
      rw [hrun]
      exact ih _ hstep.1 hstep.2.1 hstep.2.2
    | closeFile h2 =>
      have hstep := daff_close_stale s h2 h hinv hle hnv
      exact ih _ hstep.1 hstep.2.1 hstep.2.2
    | query h2 => exact ih s hinv hle hnv

/-- Closing an invalid handle raises an error. -/
theorem daff_close_invalid (s : PyState) (h : Nat)
    (hnv : s.validHandle h = false) :
    (daff_close s h).1 = false := by
  unfold daff_close
  rw [hnv]
  simp

/-- An invalid handle makes daff_content_type fail. -/
theorem daff_content_type_invalid (s : PyState) (h : Nat)
    (hnv : s.validHandle h = false) :
    daff_content_type s h = none := by
  rw [validHandle_false_iff] at hnv
  unfold daff_content_type
  rw [List.find?_eq_none.mpr]
  intro p hp
  simpa using hnv p hp

/-- C7: close invalidates the handle.  From any reachable global state
(one satisfying the table invariant) in which handle h is valid, closing
h succeeds; afterwards h is invalid, and it remains invalid after every
further sequence of entry-point calls: a second close fails, the
read-only entry points (modelled by daff_content_type) fail, and no
later open ever hands h out again. -/
theorem C7_close_invalidates_handle (s : PyState) (h : Nat)
    (hinv : s.inv) (hvalid : s.validHandle h = true) :
    (daff_close s h).1 = true ∧
    ((daff_close s h).2).validHandle h = false ∧
    (∀ ops, (pyRunState ((daff_close s h).2) ops).validHandle h = false) ∧
    (∀ ops, (daff_close (pyRunState ((daff_close s h).2) ops) h).1 = false) ∧
    (∀ ops, daff_content_type (pyRunState ((daff_close s h).2) ops) h
      = none) := by
  have hle : h ≤ s.lastHandle := by
    rcases (validHandle_iff s h).mp hvalid with ⟨p, hp, hph⟩
    exact hph ▸ hinv p hp
  have hclosed : ((daff_close s h).2).validHandle h = false := by
    rw [validHandle_false_iff]
    intro p hp
    unfold daff_close at hp
    rw [if_pos hvalid] at hp
    simpa using (List.mem_filter.mp hp).2
  have hcinv : ((daff_close s h).2).inv := fun p hp => by
    unfold daff_close at hp ⊢
    rw [if_pos hvalid] at hp ⊢
    exact hinv p (List.mem_of_mem_filter hp)
  have hcle : h ≤ ((daff_close s h).2).lastHandle := by
    rw [daff_close_lastHandle]
    exact hle
  have hrun : ∀ ops,
      (pyRunState ((daff_close s h).2) ops).validHandle h = false :=
    fun ops => (pyRun_stale ops _ h hcinv hcle hclosed).2.2
  refine ⟨by simp [daff_close, hvalid], hclosed, hrun, ?_, ?_⟩
  · intro ops
    exact daff_close_invalid _ h (hrun ops)
  · intro ops
    exact daff_content_type_invalid _ h (hrun ops)

/-- Witness for C7 on a concrete state with one open handle; after
closing handle 1 it stays invalid even across a later successful open. -/
theorem C7_witness :
    PyState.inv ⟨[(1, ⟨1⟩)], 1⟩ ∧
    PyState.validHandle ⟨[(1, ⟨1⟩)], 1⟩ 1 = true ∧
    (daff_close ⟨[(1, ⟨1⟩)], 1⟩ 1).1 = true ∧
    (pyRunState ((daff_close ⟨[(1, ⟨1⟩)], 1⟩ 1).2)
      [PyOp.openFile 0 ⟨2⟩]).validHandle 1 = false :=
  ⟨by decide, by decide,
   (C7_close_invalidates_handle ⟨[(1, ⟨1⟩)], 1⟩ 1 (by decide) (by decide)).1,
   (C7_close_invalidates_handle ⟨[(1, ⟨1⟩)], 1⟩ 1 (by decide)
     (by decide)).2.2.1 [PyOp.openFile 0 ⟨2⟩]⟩

/-- Every handle a run returns exceeds the starting counter; the counter
never decreases; and the returned handles are strictly increasing in
call order. -/
theorem pyRun_handles_increasing (ops : List PyOp) (s : PyState) :
    (∀ x ∈ (pyRun s ops).2, s.lastHandle < x) ∧
    s.lastHandle ≤ ((pyRun s ops).1).lastHandle ∧
    List.Pairwise (fun a b => a < b) (pyRun s ops).2 := by
  induction ops generalizing s with
  | nil => simp [pyRun]
  | cons op rest ih =>
    cases op with
    | openFile e f =>
      by_cases he : e = DAFF_NO_ERROR
      · have hopen : daff_open s e f
            = (some (s.lastHandle + 1),
               ⟨(s.lastHandle + 1, f) :: s.table, s.lastHandle + 1⟩) := by
          simp [daff_open, he]
        have ihs := ih (⟨(s.lastHandle + 1, f) :: s.table,
          s.lastHandle + 1⟩ : PyState)
        simp only [pyRun, hopen]
        refine ⟨?_, ?_, ?_⟩
        · intro x hx
          rcases List.mem_cons.mp hx with hx1 | hx2
          · omega
          · have := ihs.1 x hx2
            simp only at this
            omega
        · have := ihs.2.1
          simp only at this
          omega
        · refine List.pairwise_cons.mpr ⟨?_, ihs.2.2⟩
          intro x hx
          have := ihs.1 x hx
          simp only at this
          omega
      · have hopen : daff_open s e f = (none, s) := by
          simp [daff_open, he]
        simpa only [pyRun, hopen] using ih s
    | closeFile h2 =>
      have ihs := ih ((daff_close s h2).2)
      simp only [pyRun]
      rw [daff_close_lastHandle] at ihs
      exact ihs
    | query h2 =>
      simpa only [pyRun] using ih s

/-- C10: Python handle identifiers are strictly increasing and never
reused.  For every sequence of entry-point calls starting from the
initial global state (empty reader map, counter 0), the handles returned
by the successful opens, in call order, are pairwise strictly
increasing - so a closed handle value is never handed out again. -/
theorem C10_open_handles_strictly_increasing (ops : List PyOp) :
    List.Pairwise (fun a b => a < b) (pyRun pyInit ops).2 :=
  (pyRun_handles_increasing ops pyInit).2.2

/-- Rounding a value that is exactly an integer returns that integer. -/
theorem roundHalfUp_intCast (z : ℤ) : roundHalfUp (z : ℚ) = z := by
  unfold roundHalfUp
  rw [Int.floor_eq_iff]
  refine ⟨by linarith, ?_⟩
  have hone : ((z + 1 : ℤ) : ℚ) = (z : ℚ) + 1 := by push_cast; ring
  linarith [hone.ge]

/-- Clamping a value already inside the range leaves it unchanged. -/
theorem clampInt_eq_self {x lo hi : ℤ} (h1 : lo ≤ x) (h2 : x ≤ hi) :
    clampInt x lo hi = x := by
  unfold clampInt
  omega

/-- C8: nearest-neighbour round-trip.  For every equi-angular grid with
positive point counts and resolutions and every valid record index r,
querying the nearest neighbour at the exact stored data-view coordinates
of r returns r itself with outOfBounds = false. -/
theorem C8_nearest_neighbour_roundtrip (g : Grid) (r : ℤ)
    (hA : 0 < g.alphaPoints) (hB : 0 < g.betaPoints)
    (ha : 0 < g.alphaRes) (hb : 0 < g.betaRes)
    (hr0 : 0 ≤ r) (hrU : r < g.alphaPoints * g.betaPoints) :
    g.nearestNeighbour (g.recordCoords r).1 (g.recordCoords r).2
      = (r, false) := by
  obtain ⟨A, B, a0, aR, b0, bR⟩ := g
  simp only at hA hB ha hb hrU
  have hia0 : 0 ≤ r % A := Int.emod_nonneg r (by omega)
  have hiaA : r % A < A := Int.emod_lt_of_pos r hA
  have hib0 : 0 ≤ r / A := Int.ediv_nonneg hr0 (le_of_lt hA)
  have hibB : r / A < B :=
    Int.ediv_lt_of_lt_mul hA (by rwa [mul_comm] at hrU)
  have hane : aR ≠ 0 := ne_of_gt ha
  have hbne : bR ≠ 0 := ne_of_gt hb
  have hqa : (a0 + ((r % A : ℤ) : ℚ) * aR - a0) / aR = ((r % A : ℤ) : ℚ) := by
    field_simp
  have hqb : (b0 + ((r / A : ℤ) : ℚ) * bR - b0) / bR = ((r / A : ℤ) : ℚ) := by
    field_simp
  simp only [Grid.nearestNeighbour, Grid.recordCoords, Grid.outOfBounds]
  rw [hqa, hqb, roundHalfUp_intCast, roundHalfUp_intCast,
    clampInt_eq_self hia0 (by omega), clampInt_eq_self hib0 (by omega)]
  have hidx : r / A * A + r % A = r := by
    have := Int.ediv_add_emod r A
    linarith
  have hAcast : ((r % A : ℤ) : ℚ) ≤ ((A - 1 : ℤ) : ℚ) :=
    Int.cast_le.mpr (by omega)
  have hBcast : ((r / A : ℤ) : ℚ) ≤ ((B - 1 : ℤ) : ℚ) :=
    Int.cast_le.mpr (by omega)
  have hA0 : (0 : ℚ) ≤ ((r % A : ℤ) : ℚ) := Int.cast_nonneg.mpr hia0
  have hB0 : (0 : ℚ) ≤ ((r / A : ℤ) : ℚ) := Int.cast_nonneg.mpr hib0
  refine Prod.ext hidx ?_
  simp only [Bool.or_eq_false_iff, decide_eq_false_iff_not, not_lt]
  refine ⟨⟨⟨?_, ?_⟩, ?_⟩, ?_⟩
  · nlinarith
  · nlinarith
  · nlinarith
  · nlinarith

/-- Witness for C8 on a concrete 4 x 3 grid with 45-degree resolution,
record index 5. -/
theorem C8_witness :
    (0 : ℤ) < 4 ∧ (0 : ℤ) < 3 ∧ (0 : ℚ) < 45 ∧ (0 : ℤ) ≤ 5 ∧
    (5 : ℤ) < 4 * 3 ∧
    Grid.nearestNeighbour ⟨4, 3, 0, 45, -90, 45⟩
      (Grid.recordCoords ⟨4, 3, 0, 45, -90, 45⟩ 5).1
      (Grid.recordCoords ⟨4, 3, 0, 45, -90, 45⟩ 5).2 = (5, false) :=
  ⟨by decide, by decide, by norm_num, by decide, by decide,
   C8_nearest_neighbour_roundtrip ⟨4, 3, 0, 45, -90, 45⟩ 5 (by decide)
     (by decide) (by norm_num) (by norm_num) (by decide) (by decide)⟩

end OpenDAFF
